import Mathlib

/-!
Verification of `django_tenants/middleware/subfolder.py`
(class `TenantSubfolderMiddleware`).

The middleware is embedded shallowly:

* Python strings are Lean `String` (a structure over `List Char`); the string
  operations the source uses (`startswith`, slicing, `split`) are embedded as
  functions over the underlying character lists, mirroring Python semantics.
* The ORM is a pair of lookup maps (tenant by schema name, tenant by domain).
* Exceptions are an explicit error type threaded through `Except`.
* The framework side effects (schema switching on the database connection,
  URL-cache clearing, thread urlconf installation, attribute assignment)
  are recorded both in an explicit `World` state and as a trace of `Event`s,
  so that claims about which effects run, how often and in which order can
  be stated.

Functions inherited from `TenantMainMiddleware` or imported from
`django_tenants.utils` are not part of the source snapshot; they are modelled
from the spec and carry a doc comment saying so.
-/

set_option autoImplicit false

namespace DjangoTenants

/-- Exceptions that the embedded code can raise.  `http404` is Django's
`Http404`, the class bound to `TENANT_NOT_FOUND_EXCEPTION` in the source;
`nameError` is Python's `NameError` (an unbound name was evaluated);
`keyError` is Python's `KeyError`; `improperlyConfigured` is Django's
`ImproperlyConfigured`. -/
inductive Exn where
  | http404 (msg : String)
  | nameError (missing : String)
  | keyError
  | improperlyConfigured
  deriving Repr, DecidableEq

/-- A tenant-model instance.  `schema_name` and `tenant_type` are database
columns; `domain_subfolder` and `domain_url` are plain Python attributes that
`process_request` assigns on the fetched object (absent, i.e. `none`, on a
freshly fetched instance). -/
structure TenantObj where
  schema_name : String
  tenant_type : String
  domain_subfolder : Option String
  domain_url : Option String
  deriving Repr, DecidableEq

/-- The value returned by `get_tenant_urlconf` in the intended code: a module
object named after the tenant subfolder whose `urlpatterns` nest the tenant's
urlconf under `"<TENANT_SUBFOLDER_PREFIX>/<subfolder>/"`. -/
structure UrlConf where
  module_name : String
  nested_under : String
  inner_urlconf : String
  deriving Repr, DecidableEq

/-- The Django settings and `django_tenants.utils` configuration accessors
that the source reads.  `tenantSubfolderPfx` is `settings.TENANT_SUBFOLDER_PREFIX`
(`none` when the setting is absent); `publicSchemaName` is the value of
`get_public_schema_name()`; `rootUrlconf` is `settings.ROOT_URLCONF`;
`hasMultiTypeTenants` and `tenantTypes` model `has_multi_type_tenants()` and
`get_tenant_types()` (the latter mapping a tenant type to its `URLCONF`
entry, `none` when the dictionary has no such key). -/
structure Settings where
  tenantSubfolderPfx : Option String
  publicSchemaName : String
  rootUrlconf : String
  hasMultiTypeTenants : Bool
  tenantTypes : String → Option String

/-- The database: `tenantBySchema` models
`tenant_model.objects.get(schema_name=...)` and `tenantByDomain` the domain
lookup performed by `get_tenant` (`none` models the query raising
`DoesNotExist`). -/
structure Db where
  tenantBySchema : String → Option TenantObj
  tenantByDomain : String → Option TenantObj

/-- An HTTP request.  `tenant` and `urlconf` model the presence or absence of
the attributes of those names on the request object (`none` = attribute not
set, so `hasattr` is false); `extra` stands for every other attribute of the
framework-supplied request object, which the middleware must leave alone. -/
structure Request where
  path : String
  host : String
  tenant : Option TenantObj
  urlconf : Option UrlConf
  extra : List (String × String)
  deriving Repr, DecidableEq

/-- The schema pointer of the database connection: either the public schema
(after `connection.set_schema_to_public()`) or a tenant's schema (after
`connection.set_tenant(t)`). -/
inductive SchemaPtr where
  | publicSchema
  | tenantSchema (t : TenantObj)
  deriving Repr, DecidableEq

/-- The mutable state `process_request` acts on: the request object, the
database connection's schema pointer, and the thread-local urlconf installed
via `set_urlconf`. -/
structure World where
  request : Request
  conn : SchemaPtr
  threadUrlconf : Option UrlConf
  deriving Repr, DecidableEq

/-- Trace of the observable framework effects of one `process_request` run,
in execution order. -/
inductive Event where
  | setSchemaToPublic
  | lookupTenantBySchema (schema_name : String)
  | lookupDomain (key : String)
  | assignTenantDomainSubfolder (v : String)
  | assignTenantDomainUrl (v : String)
  | assignRequestTenant
  | setTenant
  | clearUrlCaches
  | assignRequestUrlconf
  | setUrlconf
  deriving Repr, DecidableEq

/-- Python's `str.split(sep)` for a one-character separator, on the character
list: always returns at least one chunk (`"".split("/") == [""]`). -/
def splitChars (sep : Char) : List Char → List (List Char)
  | [] => [[]]
  | c :: cs =>
    if c = sep then
      [] :: splitChars sep cs
    else
      match splitChars sep cs with
      | [] => [[c]]
      | h :: t => (c :: h) :: t

/-- Python's `s.split("/")` on Lean strings. -/
def str_split_slash (s : String) : List String :=
  (splitChars '/' s.data).map (fun l => ⟨l⟩)

/-- Python's `s.startswith(pre)`. -/
def str_startswith (s pre : String) : Bool :=
  pre.data.isPrefixOf s.data

/-- Python's slice `s[n:]`. -/
def str_drop (s : String) (n : Nat) : String :=
  ⟨s.data.drop n⟩

/-- Embeds `get_subfolder_prefix` from `django_tenants.utils`, which is not in
the source snapshot.  Modelled from the spec: it returns the configured
`TENANT_SUBFOLDER_PREFIX`, with an absent setting read as the empty string
(so that "absent or empty" is exactly "falsy"). -/
def get_subfolder_pfx (s : Settings) : String :=
  s.tenantSubfolderPfx.getD ""

/-- Embeds `TenantMainMiddleware.hostname_from_request`, which is not in the
source snapshot.  Modelled from the spec: it extracts the request's host
name. -/
def hostname_from_request (r : Request) : String :=
  r.host

/-- Embeds `TenantMainMiddleware.get_tenant`, which is not in the source
snapshot.  Modelled from the spec: "a database lookup keyed by that parsed
value" — a lookup in the domain model keyed by the given hostname, returning
the domain's tenant; `none` models the query raising
`domain_model.DoesNotExist`. -/
def get_tenant (db : Db) (hostname : String) : Option TenantObj :=
  db.tenantByDomain hostname

/-- Embeds `TenantMainMiddleware.setup_url_routing`, which is not in the
source snapshot.  Modelled from the spec: the spec describes the middleware's
mutations as "four attribute assignments on a framework-supplied object"
(`domain_subfolder`, `domain_url`, `request.tenant`, `request.urlconf`, the
last only on the tenant branch), so the call on the public branch is modelled
as performing no mutation and no lookup. -/
def setup_url_routing (w : World) (force_public : Bool) : World × List Event :=
  let _ := force_public
  (w, [])

/-- The class attribute `TENANT_NOT_FOUND_EXCEPTION = Http404` of
`TenantSubfolderMiddleware`. -/
def TENANT_NOT_FOUND_EXCEPTION : String → Exn :=
  Exn.http404

/-- Embeds `TenantSubfolderMiddleware.no_tenant_found`: raises
`TENANT_NOT_FOUND_EXCEPTION` with the hostname interpolated into the
message. -/
def no_tenant_found (hostname : String) : Exn :=
  TENANT_NOT_FOUND_EXCEPTION ("No tenant for subfolder \"" ++ hostname ++ "\"")

/-- Embeds `TenantSubfolderMiddleware.get_tenant_urlconf`.  The source first
computes the urlconf to nest (from the tenant types dictionary in a
multi-type setup — a missing key raises `KeyError` — otherwise
`settings.ROOT_URLCONF`), reads the subfolder setting, and then executes the
statement `class TenantUrlConf(ModuleType)`.  `ModuleType` is never imported
in `subfolder.py` (there is no `from types import ModuleType`), so evaluating
the base class of that class statement raises `NameError` before any
urlpatterns are built, and the function never returns. -/
def get_tenant_urlconf (s : Settings) (tenant : TenantObj) : Except Exn UrlConf :=
  match (if s.hasMultiTypeTenants then s.tenantTypes tenant.tenant_type
         else some s.rootUrlconf) with
  | none => Except.error Exn.keyError
  | some _urlconf =>
    let _sub_pfx := get_subfolder_pfx s
    Except.error (Exn.nameError "ModuleType")

/-- Embeds the tail of `process_request` (source lines 82-91), reached by
both branches once a tenant has been resolved:
`tenant.domain_url = hostname`; `request.tenant = tenant`;
`connection.set_tenant(request.tenant)`; `clear_url_caches()`; and, when a
tenant urlconf was built, `request.urlconf = urlconf; set_urlconf(urlconf)`. -/
def finish_request (w : World) (tr : List Event) (tenant : TenantObj)
    (urlconf : Option UrlConf) (hostname : String) :
    Except Exn Unit × World × List Event :=
  let tenant := { tenant with domain_url := some hostname }
  let tr := tr ++ [Event.assignTenantDomainUrl hostname]
  let w := { w with request := { w.request with tenant := some tenant } }
  let tr := tr ++ [Event.assignRequestTenant]
  let w := { w with conn := SchemaPtr.tenantSchema tenant }
  let tr := tr ++ [Event.setTenant, Event.clearUrlCaches]
  match urlconf with
  | none => (Except.ok (), w, tr)
  | some u =>
    let w := { w with request := { w.request with urlconf := some u },
                      threadUrlconf := some u }
    (Except.ok (), w, tr ++ [Event.assignRequestUrlconf, Event.setUrlconf])

/-- Embeds `TenantSubfolderMiddleware.process_request`.  Returns the outcome
(`ok` or the raised exception), the final state, and the trace of framework
effects in execution order. -/
def process_request (s : Settings) (db : Db) (w : World) :
    Except Exn Unit × World × List Event :=
  -- Short circuit if tenant is already set by another middleware.
  if w.request.tenant.isSome then
    (Except.ok (), w, [])
  else
    let w := { w with conn := SchemaPtr.publicSchema }
    let tr := [Event.setSchemaToPublic]
    let hostname := hostname_from_request w.request
    let sub_pfx_path : String := "/" ++ get_subfolder_pfx s ++ "/"
    -- We are in the public tenant
    if ¬ str_startswith w.request.path sub_pfx_path then
      let tr := tr ++ [Event.lookupTenantBySchema s.publicSchemaName]
      match db.tenantBySchema s.publicSchemaName with
      | none => (Except.error (TENANT_NOT_FOUND_EXCEPTION "Unable to find public tenant"), w, tr)
      | some tenant =>
        let (w, tr2) := setup_url_routing w true
        finish_request w (tr ++ tr2) tenant none hostname
    -- We are in a specific tenant
    else
      let path_chunks := str_split_slash (str_drop w.request.path sub_pfx_path.data.length)
      let tenant_subfolder := path_chunks.headD ""
      let tr := tr ++ [Event.lookupDomain tenant_subfolder]
      match get_tenant db tenant_subfolder with
      | none => (Except.error (no_tenant_found hostname), w, tr)
      | some tenant =>
        let tenant := { tenant with domain_subfolder := some tenant_subfolder }
        let tr := tr ++ [Event.assignTenantDomainSubfolder tenant_subfolder]
        match get_tenant_urlconf s tenant with
        | Except.error e => (Except.error e, w, tr)
        | Except.ok urlconf => finish_request w tr tenant (some urlconf) hostname

/-- The middleware object after a successful `__init__`: it stores
`get_response` (modelled as an opaque handle). -/
structure Middleware where
  get_response : Nat
  deriving Repr, DecidableEq

/-- Embeds `TenantSubfolderMiddleware.__init__`: `super().__init__` (from
`TenantMainMiddleware`, not in the source snapshot, modelled from the spec as
storing `get_response`), then `self.get_response = get_response`, then
`raise ImproperlyConfigured` when `get_subfolder_prefix()` is falsy. -/
def middleware_init (s : Settings) (gr : Nat) : Except Exn Middleware :=
  let self : Middleware := { get_response := gr }
  if get_subfolder_pfx s = "" then
    Except.error Exn.improperlyConfigured
  else
    Except.ok self

/-- The subfolder the tenant branch extracts from a request path: first
`"/"`-separated chunk of the path after the `"/<TENANT_SUBFOLDER_PREFIX>/"`
part. -/
def tenant_subfolder_of (s : Settings) (p : String) : String :=
  (str_split_slash (str_drop p ("/" ++ get_subfolder_pfx s ++ "/").data.length)).headD ""

/-- Events that are database lookups. -/
def isLookup : Event → Bool
  | Event.lookupTenantBySchema _ => true
  | Event.lookupDomain _ => true
  | _ => false

/-- Events that are attribute assignments (on the tenant object or the
request object). -/
def isAssign : Event → Bool
  | Event.assignTenantDomainSubfolder _ => true
  | Event.assignTenantDomainUrl _ => true
  | Event.assignRequestTenant => true
  | Event.assignRequestUrlconf => true
  | _ => false

/-! Concrete fixtures used by witnesses and counterexamples: a public tenant,
a tenant reachable under the subfolder `"acme"`, a settings object with
`TENANT_SUBFOLDER_PREFIX = "clients"`, and a few request worlds. -/

/-- Fixture: the public tenant row. -/
def tPub : TenantObj :=
  { schema_name := "public", tenant_type := "std", domain_subfolder := none, domain_url := none }

/-- Fixture: the tenant row reached through domain `"acme"`. -/
def tAcme : TenantObj :=
  { schema_name := "acme", tenant_type := "std", domain_subfolder := none, domain_url := none }

/-- Fixture: settings with the subfolder setting `"clients"`. -/
def sEx : Settings :=
  { tenantSubfolderPfx := some "clients", publicSchemaName := "public",
    rootUrlconf := "myapp.urls", hasMultiTypeTenants := false, tenantTypes := fun _ => none }

/-- Fixture: settings with the subfolder setting absent. -/
def sNoPfx : Settings :=
  { tenantSubfolderPfx := none, publicSchemaName := "public",
    rootUrlconf := "myapp.urls", hasMultiTypeTenants := false, tenantTypes := fun _ => none }

/-- Fixture: a database holding the public tenant and the `"acme"` domain. -/
def dbEx : Db :=
  { tenantBySchema := fun n => if n = "public" then some tPub else none,
    tenantByDomain := fun d => if d = "acme" then some tAcme else none }

/-- Fixture: a public-path request (`"/home"` does not start with
`"/clients/"`). -/
def wHome : World :=
  { request := { path := "/home", host := "example.com", tenant := none,
                 urlconf := none, extra := [("meta", "x")] },
    conn := SchemaPtr.publicSchema, threadUrlconf := none }

/-- Fixture: a tenant-path request for subfolder `"acme"`. -/
def wAcme : World :=
  { request := { path := "/clients/acme/dashboard", host := "example.com", tenant := none,
                 urlconf := none, extra := [] },
    conn := SchemaPtr.publicSchema, threadUrlconf := none }

/-- Fixture: a request whose path is exactly the subfolder part,
`"/clients/"`. -/
def wSlash : World :=
  { request := { path := "/clients/", host := "example.com", tenant := none,
                 urlconf := none, extra := [] },
    conn := SchemaPtr.publicSchema, threadUrlconf := none }

/-- Fixture: a request that already carries a `tenant` attribute, while the
connection still points at the public schema. -/
def wPre : World :=
  { request := { path := "/clients/acme/dashboard", host := "example.com", tenant := some tAcme,
                 urlconf := none, extra := [] },
    conn := SchemaPtr.publicSchema, threadUrlconf := none }

/-! General lemmas about the embedded string operations and about each
execution path of `process_request`. -/

theorem splitChars_ne_nil (sep : Char) (l : List Char) : splitChars sep l ≠ [] := by
  induction l with
  | nil => simp [splitChars]
  | cons c cs ih =>
    simp only [splitChars]
    split
    · simp
    · split
      · simp
      · simp

theorem splitChars_headD (sep : Char) (l : List Char) :
    (splitChars sep l).headD [] = l.takeWhile (fun c => c != sep) := by
  induction l with
  | nil => rfl
  | cons c cs ih =>
    by_cases h : c = sep
    · simp [splitChars, h]
    · cases hsp : splitChars sep cs with
      | nil => exact absurd hsp (splitChars_ne_nil sep cs)
      | cons h0 t0 =>
        rw [hsp] at ih
        simp only [List.headD_cons] at ih
        simp [splitChars, h, hsp, List.takeWhile_cons, ih]

theorem str_split_slash_headD (m : String) :
    ((str_split_slash m).headD "").data = m.data.takeWhile (fun c => c != '/') := by
  unfold str_split_slash
  cases hsp : splitChars '/' m.data with
  | nil => exact absurd hsp (splitChars_ne_nil '/' m.data)
  | cons h t =>
    have hh := splitChars_headD '/' m.data
    rw [hsp] at hh
    simpa using hh

theorem tenant_subfolder_of_data (s : Settings) (p : String) :
    (tenant_subfolder_of s p).data =
      (p.data.drop ("/" ++ get_subfolder_pfx s ++ "/").data.length).takeWhile
        (fun c => c != '/') := by
  unfold tenant_subfolder_of
  exact str_split_slash_headD (str_drop p ("/" ++ get_subfolder_pfx s ++ "/").data.length)

theorem get_tenant_urlconf_error (s : Settings) (t : TenantObj) :
    get_tenant_urlconf s t = Except.error Exn.keyError ∨
    get_tenant_urlconf s t = Except.error (Exn.nameError "ModuleType") := by
  cases h : (if s.hasMultiTypeTenants then s.tenantTypes t.tenant_type
             else some s.rootUrlconf) with
  | none => left; simp [get_tenant_urlconf, h]
  | some u => right; simp [get_tenant_urlconf, h]

theorem process_request_public_fail (s : Settings) (db : Db) (w : World)
    (h0 : w.request.tenant = none)
    (hb : str_startswith w.request.path ("/" ++ get_subfolder_pfx s ++ "/") = false)
    (hdb : db.tenantBySchema s.publicSchemaName = none) :
    process_request s db w =
      (Except.error (Exn.http404 "Unable to find public tenant"),
       { w with conn := SchemaPtr.publicSchema },
       [Event.setSchemaToPublic, Event.lookupTenantBySchema s.publicSchemaName]) := by
  unfold process_request
  rw [h0]
  simp only [Option.isSome_none, Bool.false_eq_true, if_false, hb, not_false_eq_true, if_true,
    hdb, TENANT_NOT_FOUND_EXCEPTION, List.cons_append, List.nil_append]

theorem process_request_public_ok (s : Settings) (db : Db) (w : World) (tpub : TenantObj)
    (h0 : w.request.tenant = none)
    (hb : str_startswith w.request.path ("/" ++ get_subfolder_pfx s ++ "/") = false)
    (hdb : db.tenantBySchema s.publicSchemaName = some tpub) :
    process_request s db w =
      (Except.ok (),
       { w with
           request := { w.request with
             tenant := some { tpub with domain_url := some w.request.host } },
           conn := SchemaPtr.tenantSchema { tpub with domain_url := some w.request.host } },
       [Event.setSchemaToPublic, Event.lookupTenantBySchema s.publicSchemaName,
        Event.assignTenantDomainUrl w.request.host, Event.assignRequestTenant,
        Event.setTenant, Event.clearUrlCaches]) := by
  unfold process_request
  rw [h0]
  simp only [Option.isSome_none, Bool.false_eq_true, if_false, hb, not_false_eq_true, if_true,
    hdb, setup_url_routing, finish_request, hostname_from_request, List.append_nil,
    List.cons_append, List.nil_append]

theorem process_request_domain_fail (s : Settings) (db : Db) (w : World)
    (h0 : w.request.tenant = none)
    (hb : str_startswith w.request.path ("/" ++ get_subfolder_pfx s ++ "/") = true)
    (hdb : db.tenantByDomain (tenant_subfolder_of s w.request.path) = none) :
    process_request s db w =
      (Except.error (Exn.http404 ("No tenant for subfolder \"" ++ w.request.host ++ "\"")),
       { w with conn := SchemaPtr.publicSchema },
       [Event.setSchemaToPublic,
        Event.lookupDomain (tenant_subfolder_of s w.request.path)]) := by
  simp only [tenant_subfolder_of] at hdb
  unfold process_request
  rw [h0]
  simp only [Option.isSome_none, Bool.false_eq_true, if_false, hb, not_true_eq_false,
    get_tenant, hostname_from_request, hdb, no_tenant_found, TENANT_NOT_FOUND_EXCEPTION,
    tenant_subfolder_of, List.cons_append, List.nil_append]

theorem process_request_domain_found (s : Settings) (db : Db) (w : World) (t : TenantObj)
    (h0 : w.request.tenant = none)
    (hb : str_startswith w.request.path ("/" ++ get_subfolder_pfx s ++ "/") = true)
    (hdb : db.tenantByDomain (tenant_subfolder_of s w.request.path) = some t) :
    ∃ e : Exn,
      process_request s db w =
        (Except.error e,
         { w with conn := SchemaPtr.publicSchema },
         [Event.setSchemaToPublic,
          Event.lookupDomain (tenant_subfolder_of s w.request.path),
          Event.assignTenantDomainSubfolder (tenant_subfolder_of s w.request.path)]) ∧
      (e = Exn.keyError ∨ e = Exn.nameError "ModuleType") := by
  rcases get_tenant_urlconf_error s
      { t with domain_subfolder := some (tenant_subfolder_of s w.request.path) } with hu | hu <;>
    [refine ⟨Exn.keyError, ?_, Or.inl rfl⟩; refine ⟨Exn.nameError "ModuleType", ?_, Or.inr rfl⟩] <;>
  · simp only [tenant_subfolder_of] at hdb hu
    unfold process_request
    rw [h0]
    simp only [Option.isSome_none, Bool.false_eq_true, if_false, hb, not_true_eq_false,
      get_tenant, hostname_from_request, hdb, hu, tenant_subfolder_of, List.cons_append,
      List.nil_append]

/-! The claims. -/

/-- C8: a request that already carries a `tenant` attribute short-circuits
`process_request`: it returns immediately without raising, performs no
database lookup and no framework effect, and leaves the connection schema,
the thread urlconf and every attribute of the request unchanged. -/
theorem claim8_short_circuit (s : Settings) (db : Db) (w : World) (t : TenantObj)
    (h : w.request.tenant = some t) :
    process_request s db w = (Except.ok (), w, []) := by
  simp [process_request, h]

theorem claim8_witness : process_request sEx dbEx wPre = (Except.ok (), wPre, []) :=
  claim8_short_circuit sEx dbEx wPre tAcme rfl

/-- C9: `__init__` raises `ImproperlyConfigured` if and only if the
configured subfolder setting (as returned by `get_subfolder_prefix`) is
absent or empty; with a non-empty setting, construction succeeds and stores
`get_response`. -/
theorem claim9_init (s : Settings) (gr : Nat) :
    (middleware_init s gr = Except.error Exn.improperlyConfigured ↔
      (s.tenantSubfolderPfx = none ∨ s.tenantSubfolderPfx = some "")) ∧
    (get_subfolder_pfx s ≠ "" →
      middleware_init s gr = Except.ok { get_response := gr }) := by
  constructor
  · constructor
    · intro h
      by_cases hp : get_subfolder_pfx s = ""
      · cases ho : s.tenantSubfolderPfx with
        | none => exact Or.inl rfl
        | some p =>
          right
          unfold get_subfolder_pfx at hp
          rw [ho] at hp
          simp only [Option.getD_some] at hp
          rw [hp]
      · simp [middleware_init, hp] at h
    · intro h
      have hp : get_subfolder_pfx s = "" := by
        rcases h with h | h <;> simp [get_subfolder_pfx, h]
      simp [middleware_init, hp]
  · intro h
    simp [middleware_init, h]

theorem claim9_witness :
    middleware_init sEx 7 = Except.ok { get_response := 7 } ∧
    middleware_init sNoPfx 7 = Except.error Exn.improperlyConfigured :=
  ⟨(claim9_init sEx 7).2 (by decide), (claim9_init sNoPfx 7).1.2 (Or.inl rfl)⟩

/-- C10: extracting the subfolder on the tenant branch is total — splitting
any string on `"/"` yields a non-empty list, so taking chunk 0 never fails —
and on the edge path that is exactly `"/<TENANT_SUBFOLDER_PREFIX>/"` the
extracted subfolder is the empty string and the domain lookup runs with that
empty string as key. -/
theorem claim10_split_total (s : Settings) (db : Db) (w : World)
    (h0 : w.request.tenant = none)
    (hp : w.request.path = "/" ++ get_subfolder_pfx s ++ "/") :
    (∀ l : List Char, splitChars '/' l ≠ []) ∧
    tenant_subfolder_of s w.request.path = "" ∧
    Event.lookupDomain "" ∈ (process_request s db w).2.2 := by
  have hb : str_startswith w.request.path ("/" ++ get_subfolder_pfx s ++ "/") = true := by
    rw [hp]
    unfold str_startswith
    simp [List.isPrefixOf_iff_prefix]
  have hseg : tenant_subfolder_of s w.request.path = "" := by
    apply String.ext
    rw [tenant_subfolder_of_data, hp]
    simp
  refine ⟨fun l => splitChars_ne_nil '/' l, hseg, ?_⟩
  cases hdb : db.tenantByDomain (tenant_subfolder_of s w.request.path) with
  | none =>
    rw [process_request_domain_fail s db w h0 hb hdb]
    simp [hseg]
  | some t =>
    obtain ⟨e, hpr, -⟩ := process_request_domain_found s db w t h0 hb hdb
    rw [hpr]
    simp [hseg]

theorem claim10_witness :
    tenant_subfolder_of sEx wSlash.request.path = "" ∧
    Event.lookupDomain "" ∈ (process_request sEx dbEx wSlash).2.2 :=
  (claim10_split_total sEx dbEx wSlash rfl (by decide)).2

/-- C4 (code bug): on the tenant branch with a successful domain lookup the
source is meant to build the urlconf nesting the tenant's patterns under
`"<TENANT_SUBFOLDER_PREFIX>/<subfolder>/"` and install it, but `subfolder.py`
never imports `ModuleType` (there is no `from types import ModuleType`), so
`get_tenant_urlconf` raises `NameError` and `process_request` propagates it:
no urlconf is ever built, assigned to `request.urlconf` or installed. -/
theorem claim4_nameerror :
    get_tenant_urlconf sEx { tAcme with domain_subfolder := some "acme" } =
      Except.error (Exn.nameError "ModuleType") ∧
    (process_request sEx dbEx wAcme).1 = Except.error (Exn.nameError "ModuleType") ∧
    (process_request sEx dbEx wAcme).2.1.request.urlconf = none ∧
    (process_request sEx dbEx wAcme).2.1.threadUrlconf = none :=
  ⟨rfl, rfl, rfl, rfl⟩

/-- C6 (code bug): on a tenant-branch request whose domain lookup succeeds,
the URL cache is never cleared, because `get_tenant_urlconf` raises
`NameError` (missing `ModuleType` import) before `clear_url_caches()` is
reached; on the public branch the cache is indeed cleared exactly once after
`set_tenant`. -/
theorem claim6_cache_not_cleared :
    get_tenant dbEx "acme" = some tAcme ∧
    Event.clearUrlCaches ∉ (process_request sEx dbEx wAcme).2.2 ∧
    (process_request sEx dbEx wHome).2.2.count Event.clearUrlCaches = 1 := by
  refine ⟨rfl, ?_, rfl⟩
  decide

/-- C1: with no pre-existing tenant attribute, `process_request` dispatches on
the single test whether the path starts with `"/<TENANT_SUBFOLDER_PREFIX>/"`:
the trace contains exactly one database lookup — the domain lookup keyed by
the parsed subfolder on the tenant branch, the public-schema tenant lookup on
the public branch — so exactly one branch and at most one lookup runs. -/
theorem claim1_single_dispatch (s : Settings) (db : Db) (w : World)
    (h0 : w.request.tenant = none) :
    (process_request s db w).2.2.filter isLookup =
      (if str_startswith w.request.path ("/" ++ get_subfolder_pfx s ++ "/") = true then
        [Event.lookupDomain (tenant_subfolder_of s w.request.path)]
      else
        [Event.lookupTenantBySchema s.publicSchemaName]) := by
  by_cases hb : str_startswith w.request.path ("/" ++ get_subfolder_pfx s ++ "/") = true
  · rw [if_pos hb]
    cases hdb : db.tenantByDomain (tenant_subfolder_of s w.request.path) with
    | none =>
      rw [process_request_domain_fail s db w h0 hb hdb]
      simp [isLookup]
    | some t =>
      obtain ⟨e, hpr, -⟩ := process_request_domain_found s db w t h0 hb hdb
      rw [hpr]
      simp [isLookup]
  · rw [if_neg hb]
    have hb2 : str_startswith w.request.path ("/" ++ get_subfolder_pfx s ++ "/") = false := by
      simpa using hb
    cases hdb : db.tenantBySchema s.publicSchemaName with
    | none =>
      rw [process_request_public_fail s db w h0 hb2 hdb]
      simp [isLookup]
    | some t =>
      rw [process_request_public_ok s db w t h0 hb2 hdb]
      simp [isLookup]

theorem claim1_witness :
    (process_request sEx dbEx wAcme).2.2.filter isLookup =
      (if str_startswith wAcme.request.path ("/" ++ get_subfolder_pfx sEx ++ "/") = true then
        [Event.lookupDomain (tenant_subfolder_of sEx wAcme.request.path)]
      else
        [Event.lookupTenantBySchema sEx.publicSchemaName]) :=
  claim1_single_dispatch sEx dbEx wAcme rfl

/-- C2: on the tenant branch the key of the domain lookup is exactly the
first `"/"`-separated segment of the request path after the
`"/<TENANT_SUBFOLDER_PREFIX>/"` part (characterised independently of the
code as `takeWhile (· != '/')` of the path suffix), and whenever that lookup
succeeds the same segment is assigned to the resolved tenant's
`domain_subfolder` attribute. -/
theorem claim2_subfolder_key (s : Settings) (db : Db) (w : World)
    (h0 : w.request.tenant = none)
    (hb : str_startswith w.request.path ("/" ++ get_subfolder_pfx s ++ "/") = true) :
    ∃ seg : String,
      seg.data =
        (w.request.path.data.drop ("/" ++ get_subfolder_pfx s ++ "/").data.length).takeWhile
          (fun c => c != '/') ∧
      Event.lookupDomain seg ∈ (process_request s db w).2.2 ∧
      ((db.tenantByDomain seg).isSome →
        Event.assignTenantDomainSubfolder seg ∈ (process_request s db w).2.2) := by
  refine ⟨tenant_subfolder_of s w.request.path,
    tenant_subfolder_of_data s w.request.path, ?_, ?_⟩
  · cases hdb : db.tenantByDomain (tenant_subfolder_of s w.request.path) with
    | none =>
      rw [process_request_domain_fail s db w h0 hb hdb]
      simp
    | some t =>
      obtain ⟨e, hpr, -⟩ := process_request_domain_found s db w t h0 hb hdb
      rw [hpr]
      simp
  · intro hs
    rw [Option.isSome_iff_exists] at hs
    obtain ⟨t, hdb⟩ := hs
    obtain ⟨e, hpr, -⟩ := process_request_domain_found s db w t h0 hb hdb
    rw [hpr]
    simp

theorem claim2_witness :
    ∃ seg : String,
      seg.data =
        (wAcme.request.path.data.drop ("/" ++ get_subfolder_pfx sEx ++ "/").data.length).takeWhile
          (fun c => c != '/') ∧
      Event.lookupDomain seg ∈ (process_request sEx dbEx wAcme).2.2 ∧
      ((dbEx.tenantByDomain seg).isSome →
        Event.assignTenantDomainSubfolder seg ∈ (process_request sEx dbEx wAcme).2.2) :=
  claim2_subfolder_key sEx dbEx wAcme rfl (by decide)

/-- C3: `process_request` raises `Http404` — the class bound to
`TENANT_NOT_FOUND_EXCEPTION` — exactly when a lookup fails: the public-tenant
query returning nothing on the public branch, or the domain query returning
nothing on the tenant branch; in no other case is `Http404` raised. -/
theorem claim3_http404_iff (s : Settings) (db : Db) (w : World) :
    (∃ m, (process_request s db w).1 = Except.error (TENANT_NOT_FOUND_EXCEPTION m)) ↔
      (w.request.tenant = none ∧
        (if str_startswith w.request.path ("/" ++ get_subfolder_pfx s ++ "/") = true then
          db.tenantByDomain (tenant_subfolder_of s w.request.path) = none
        else
          db.tenantBySchema s.publicSchemaName = none)) := by
  cases h0 : w.request.tenant with
  | some t => simp [process_request, h0]
  | none =>
    by_cases hb : str_startswith w.request.path ("/" ++ get_subfolder_pfx s ++ "/") = true
    · rw [if_pos hb]
      cases hdb : db.tenantByDomain (tenant_subfolder_of s w.request.path) with
      | none =>
        rw [process_request_domain_fail s db w h0 hb hdb]
        simp [TENANT_NOT_FOUND_EXCEPTION]
      | some t =>
        obtain ⟨e, hpr, hE⟩ := process_request_domain_found s db w t h0 hb hdb
        rw [hpr]
        rcases hE with rfl | rfl <;> simp [TENANT_NOT_FOUND_EXCEPTION]
    · rw [if_neg hb]
      have hb2 : str_startswith w.request.path ("/" ++ get_subfolder_pfx s ++ "/") = false := by
        simpa using hb
      cases hdb : db.tenantBySchema s.publicSchemaName with
      | none =>
        rw [process_request_public_fail s db w h0 hb2 hdb]
        simp [TENANT_NOT_FOUND_EXCEPTION]
      | some t =>
        rw [process_request_public_ok s db w t h0 hb2 hdb]
        simp [hdb, TENANT_NOT_FOUND_EXCEPTION]

/-- C5 (counterexample): the claim quantifies over every request that
`process_request` completes without raising; a request that already carries
a tenant attribute completes without raising yet leaves the connection
untouched, so the connection's tenant need not equal `request.tenant`. -/
theorem claim5_counterexample :
    (process_request sEx dbEx wPre).1 = Except.ok () ∧
    (process_request sEx dbEx wPre).2.1.request.tenant = some tAcme ∧
    (process_request sEx dbEx wPre).2.1.conn ≠ SchemaPtr.tenantSchema tAcme := by
  refine ⟨rfl, rfl, ?_⟩
  decide

/-- C5 (amended): for every request with no pre-existing tenant attribute
that `process_request` completes without raising, the connection schema ends
up pointing at the tenant stored in `request.tenant`, with
`set_schema_to_public` run first and `set_tenant` later. -/
theorem claim5_schema_follows_tenant (s : Settings) (db : Db) (w : World)
    (h0 : w.request.tenant = none)
    (hok : (process_request s db w).1 = Except.ok ()) :
    ∃ t, (process_request s db w).2.1.request.tenant = some t ∧
      (process_request s db w).2.1.conn = SchemaPtr.tenantSchema t ∧
      ∃ tr, (process_request s db w).2.2 = Event.setSchemaToPublic :: tr ∧
        Event.setTenant ∈ tr := by
  by_cases hb : str_startswith w.request.path ("/" ++ get_subfolder_pfx s ++ "/") = true
  · cases hdb : db.tenantByDomain (tenant_subfolder_of s w.request.path) with
    | none =>
      rw [process_request_domain_fail s db w h0 hb hdb] at hok
      simp at hok
    | some t =>
      obtain ⟨e, hpr, -⟩ := process_request_domain_found s db w t h0 hb hdb
      rw [hpr] at hok
      simp at hok
  · have hb2 : str_startswith w.request.path ("/" ++ get_subfolder_pfx s ++ "/") = false := by
      simpa using hb
    cases hdb : db.tenantBySchema s.publicSchemaName with
    | none =>
      rw [process_request_public_fail s db w h0 hb2 hdb] at hok
      simp at hok
    | some t =>
      rw [process_request_public_ok s db w t h0 hb2 hdb]
      exact ⟨_, rfl, rfl, _, rfl, by simp⟩

theorem claim5_witness :
    ∃ t, (process_request sEx dbEx wHome).2.1.request.tenant = some t ∧
      (process_request sEx dbEx wHome).2.1.conn = SchemaPtr.tenantSchema t ∧
      ∃ tr, (process_request sEx dbEx wHome).2.2 = Event.setSchemaToPublic :: tr ∧
        Event.setTenant ∈ tr :=
  claim5_schema_follows_tenant sEx dbEx wHome rfl rfl

/-- C7: `process_request` performs at most four attribute assignments — the
tenant's `domain_subfolder` and `domain_url`, `request.tenant` and
`request.urlconf` — and modifies no other request attribute (path, host and
all remaining attributes are unchanged); on the public branch
`request.urlconf` is never assigned. -/
theorem claim7_frame (s : Settings) (db : Db) (w : World) :
    ((process_request s db w).2.2.filter isAssign).length ≤ 4 ∧
    (process_request s db w).2.1.request.path = w.request.path ∧
    (process_request s db w).2.1.request.host = w.request.host ∧
    (process_request s db w).2.1.request.extra = w.request.extra ∧
    (str_startswith w.request.path ("/" ++ get_subfolder_pfx s ++ "/") = false →
      Event.assignRequestUrlconf ∉ (process_request s db w).2.2 ∧
      (process_request s db w).2.1.request.urlconf = w.request.urlconf) := by
  cases h0 : w.request.tenant with
  | some t => simp [process_request, h0]
  | none =>
    by_cases hb : str_startswith w.request.path ("/" ++ get_subfolder_pfx s ++ "/") = true
    · cases hdb : db.tenantByDomain (tenant_subfolder_of s w.request.path) with
      | none =>
        rw [process_request_domain_fail s db w h0 hb hdb]
        simp [isAssign, hb]
      | some t =>
        obtain ⟨e, hpr, -⟩ := process_request_domain_found s db w t h0 hb hdb
        rw [hpr]
        simp [isAssign, hb]
    · have hb2 : str_startswith w.request.path ("/" ++ get_subfolder_pfx s ++ "/") = false := by
        simpa using hb
      cases hdb : db.tenantBySchema s.publicSchemaName with
      | none =>
        rw [process_request_public_fail s db w h0 hb2 hdb]
        simp [isAssign]
      | some t =>
        rw [process_request_public_ok s db w t h0 hb2 hdb]
        simp [isAssign]

theorem claim7_witness :
    Event.assignRequestUrlconf ∉ (process_request sEx dbEx wHome).2.2 ∧
    (process_request sEx dbEx wHome).2.1.request.urlconf = wHome.request.urlconf :=
  (claim7_frame sEx dbEx wHome).2.2.2.2 (by decide)

end DjangoTenants
